import Mathlib

/-!
# Store Orchestration Platform — verification of the lifecycle orchestrator

Shallow embedding of the store lifecycle control plane
(`backend/src/services/provisioner.js`, `backend/src/routes/stores.js`,
`backend/src/utils/kubectlClient.js`, `backend/src/utils/helmClient.js`,
database layer, store engines) together with proofs about the embedded
operations.

Conventions of the embedding:
* JavaScript strings are Lean `String`s; the operator-supplied store name in
  the create-validation is modelled as `List Char` so that `trim`/`slice`
  length reasoning is elementary.
* The SQLite registry row for the store under consideration is an
  `Option StoreRec` inside `World` (`none` = no row with that id; an SQL
  `UPDATE ... WHERE id` on a missing row is a no-op while the audit insert
  still happens, which the embedding mirrors).
* `async`/`await` control flow is embedded as explicit state passing.  Every
  external `await` (helm exec, kubectl exec, `sleep`) is a suspension point of
  the node event loop; the `setTimeout` deadline handler of `provisionStore`
  can run exactly at such points.  `ProvEnv.timeoutAt = some k` means the
  deadline elapses at the `k`-th suspension of the run; the ghost field
  `World.timeoutFired` records that the handler ran while the operation lock
  was held.
* Fallible external calls are `Option String` / `Except String _` oracles in
  the environment records.
-/

set_option maxRecDepth 10000

namespace StorePlatform

/-- Lifecycle states of a store (`status` column, routes/stores.js header). -/
inductive Status where
  | queued
  | provisioning
  | ready
  | failed
  | deleting
  | deleted
deriving DecidableEq, Repr

/-- The string stored in the `status` column for each lifecycle state. -/
def Status.name : Status → String
  | .queued => "queued"
  | .provisioning => "provisioning"
  | .ready => "ready"
  | .failed => "failed"
  | .deleting => "deleting"
  | .deleted => "deleted"

/-- Kind of an in-flight operation (values of the `activeOperations` map). -/
inductive OpKind where
  | provisioning
  | deleting
deriving DecidableEq, Repr

-- ───────────────────────── kubectlClient.js ─────────────────────────

/-- One entry of `pod.status.conditions` as read from the kubectl JSON. -/
structure PodCondition where
  type : String
  status : String
deriving DecidableEq, Repr

/-- Raw pod data consumed by `getPodStatuses` (name, phase, conditions,
per-container restart counts). -/
structure RawPod where
  name : String
  phase : String
  conditions : List PodCondition
  restartCounts : List Nat
deriving DecidableEq, Repr

/-- Result row of `getPodStatuses`: `{ name, phase, ready, restarts }`. -/
structure PodStatus where
  name : String
  phase : String
  ready : Bool
  restarts : Nat
deriving DecidableEq, Repr

/-- `kubectlClient.getPodStatuses`: maps each pod to its status summary.
`ready` is `conditions.some(c => c.type === 'Ready' && c.status === 'True')`;
`restarts` is the sum of the container restart counts. -/
def getPodStatuses (pods : List RawPod) : List PodStatus :=
  pods.map fun pod =>
    { name := pod.name
      phase := pod.phase
      ready := pod.conditions.any fun c => c.type == "Ready" && c.status == "True"
      restarts := pod.restartCounts.foldl (· + ·) 0 }

/-- `kubectlClient.allPodsReady`: false on an empty pod list; filters out
pods in phase `Succeeded`; false if no pod remains; otherwise requires every
remaining pod to be ready. -/
def allPodsReady (pods : List RawPod) : Bool :=
  let ps := getPodStatuses pods
  if ps.length = 0 then false
  else
    let runningPods := ps.filter fun p => p.phase != "Succeeded"
    if runningPods.length = 0 then false
    else runningPods.all fun p => p.ready

/-- One entry of the kubectl events JSON consumed by `getEvents`. -/
structure RawEvent where
  type : String
  reason : String
  message : String
  objectName : String
  timestamp : String
deriving DecidableEq, Repr

/-- Result row of `getEvents`. -/
structure EventInfo where
  type : String
  reason : String
  message : String
  object : String
  timestamp : String
deriving DecidableEq, Repr

/-- `kubectlClient.getEvents`: keeps the last `limit` items
(`items.slice(-limit)`) and projects the fields. -/
def getEvents (items : List RawEvent) (limit : Nat) : List EventInfo :=
  (items.drop (items.length - limit)).map fun e =>
    { type := e.type
      reason := e.reason
      message := e.message
      object := e.objectName
      timestamp := e.timestamp }

/-- A raw pod has the `Ready=True` condition. -/
def hasReadyCondition (p : RawPod) : Bool :=
  p.conditions.any fun c => c.type == "Ready" && c.status == "True"

-- ───────────────────────── routes/stores.js: validation ─────────────────────────

/-- `name.trim()`: drop leading and trailing whitespace (name modelled as a
list of characters). -/
def trimList (s : List Char) : List Char :=
  ((s.dropWhile Char.isWhitespace).reverse.dropWhile Char.isWhitespace).reverse

/-- An error response `{ statusCode, code }` produced by the route guards. -/
structure ErrorResp where
  statusCode : Nat
  code : String
deriving DecidableEq, Repr

/-- `validateCreateStore(body)`: requires a non-empty string name whose trim
has length ≥ 2 and an engine among `woocommerce`/`medusa` (default
`woocommerce`); on success returns the trimmed name truncated to 100
characters (`name.trim().slice(0, 100)`) together with the engine. -/
def validateCreateStore (name : Option (List Char)) (engine : Option String) :
    Except ErrorResp (List Char × String) :=
  let eng := engine.getD "woocommerce"
  match name with
  | none => .error ⟨400, "MISSING_STORE_NAME"⟩
  | some n =>
    if n.isEmpty || (trimList n).length == 0 then
      .error ⟨400, "MISSING_STORE_NAME"⟩
    else if (trimList n).length < 2 then
      .error ⟨400, "INVALID_STORE_NAME"⟩
    else if ¬ (eng = "woocommerce" ∨ eng = "medusa") then
      .error ⟨400, "INVALID_ENGINE"⟩
    else
      .ok ((trimList n).take 100, eng)

-- ───────────────────────── db layer (stores table + audit_log) ─────────────────────────

/-- A row of the `stores` table (the columns the orchestrator reads/writes;
timestamps are not modelled). -/
structure StoreRec where
  id : String
  engine : String
  namespace_ : String
  status : Status
  store_url : Option String
  admin_url : Option String
  error_message : Option String
deriving DecidableEq, Repr

/-- A row of the append-only `audit_log` table.  The JSON `details` blob is
modelled as an association list of its string fields. -/
structure AuditEntry where
  store_id : Option String
  action : String
  details : List (String × String)
deriving DecidableEq, Repr

/-- Process state for a single store id: its registry row (`none` = no row),
its `activeOperations` entry, the audit log, the number of event-loop
suspensions so far, and the ghost flag recording that the provision deadline
handler ran while the lock was held. -/
structure World where
  store : Option StoreRec
  lock : Option OpKind
  auditLog : List AuditEntry
  awaitCount : Nat
  timeoutFired : Bool
deriving DecidableEq, Repr

/-- `audit.log(storeId, action, details)`: appends to `audit_log`. -/
def auditLog (w : World) (storeId : String) (action : String)
    (details : List (String × String)) : World :=
  { w with auditLog := w.auditLog ++ [⟨some storeId, action, details⟩] }

/-- `store.updateStatus(id, status, errorMessage)`: SQL `UPDATE` of status and
error_message (a no-op when the row is absent) followed by an audit
`status_change` entry. -/
def updateStatus (w : World) (storeId : String) (st : Status)
    (errorMessage : Option String) : World :=
  let w := { w with
    store := w.store.map fun r =>
      { r with status := st, error_message := errorMessage } }
  auditLog w storeId "status_change"
    [("status", st.name), ("errorMessage", errorMessage.getD "null")]

/-- `store.markReady(id, storeUrl, adminUrl)`: sets both URLs, status
`ready`, clears the error, and audits a `status_change`. -/
def markReady (w : World) (storeId storeUrl adminUrl : String) : World :=
  let w := { w with
    store := w.store.map fun r =>
      { r with store_url := some storeUrl, admin_url := some adminUrl,
               status := Status.ready, error_message := none } }
  auditLog w storeId "status_change"
    [("status", "ready"), ("storeUrl", storeUrl), ("adminUrl", adminUrl)]

/-- `store.markDeleted(id)`: sets status `deleted` and audits a `delete`. -/
def markDeleted (w : World) (storeId : String) : World :=
  let w := { w with
    store := w.store.map fun r => { r with status := Status.deleted } }
  auditLog w storeId "delete" []

/-- `store.getActiveCount()`: number of rows whose status is not in
`{deleted, failed}`. -/
def getActiveCount (statuses : List Status) : Nat :=
  (statuses.filter fun s => ¬ (s = Status.deleted ∨ s = Status.failed)).length

-- ───────────────────────── store engines (Strategy pattern) ─────────────────────────

/-- The engines registered in the provisioner's `engines` map. -/
inductive Engine where
  | woocommerce
  | medusa
deriving DecidableEq, Repr

/-- `getEngine(engineName)` lookup in the `engines` map; `none` models the
`Unknown store engine` throw. -/
def lookupEngine (name : String) : Option Engine :=
  if name = "woocommerce" then some Engine.woocommerce
  else if name = "medusa" then some Engine.medusa
  else none

/-- `engine.validate()`: `{valid, error}`.  WooCommerce always validates;
the Medusa stub returns its fixed unavailability error. -/
def engineValidate : Engine → Bool × String
  | Engine.woocommerce => (true, "")
  | Engine.medusa => (false, "MedusaJS engine is not yet implemented. Please use WooCommerce.")

/-- `engine.getUrls(storeId)`: WooCommerce uses
`http://{id}.{baseDomain}` and `.../wp-admin`; the Medusa stub uses fixed
localhost ports. -/
def engineUrls (e : Engine) (storeId baseDomain : String) : String × String :=
  match e with
  | Engine.woocommerce =>
    ("http://" ++ storeId ++ "." ++ baseDomain,
     "http://" ++ storeId ++ "." ++ baseDomain ++ "/wp-admin")
  | Engine.medusa =>
    ("http://" ++ storeId ++ ".localhost:8000",
     "http://" ++ storeId ++ ".localhost:7001")

-- ───────────────────────── provisioner.js ─────────────────────────

/-- `handleTimeout(storeId)`: if an operation is still registered for the
store, set status `failed` with message `Provisioning timed out` and remove
the `activeOperations` entry.  (`timeoutFired` is a ghost flag recording that
the handler acted.)  Nothing else of the running workflow is touched. -/
def handleTimeout (storeId : String) (w : World) : World :=
  if w.lock.isSome then
    let w := updateStatus w storeId Status.failed (some "Provisioning timed out")
    { w with lock := none, timeoutFired := true }
  else w

/-- Oracle environment for one `provisionStore(storeId)` run.
`installErr` is the raw failure text of the helm exec (`none` = success,
wrapped into `Helm command failed: <msg>` exactly as `helmClient.helmExec`
does); `readyAt i` / `podsAt i` / `eventsAt i` are the cluster answers on
poll attempt `i`; `timeoutAt = some k` makes the provision deadline elapse at
the `k`-th event-loop suspension of the run. -/
structure ProvEnv where
  installErr : Option String
  installAlreadyExists : Bool
  readyAt : Nat → Bool
  podsAt : Nat → List PodStatus
  eventsAt : Nat → List RawEvent
  timeoutAt : Option Nat
  baseDomain : String

/-- One event-loop suspension (an `await` of an external call or `sleep`):
the pending `setTimeout` deadline handler runs here when its delay has
elapsed. -/
def suspend (storeId : String) (timeoutAt : Option Nat) (w : World) : World :=
  let w := { w with awaitCount := w.awaitCount + 1 }
  if timeoutAt = some w.awaitCount then handleTimeout storeId w else w

/-- `pods.filter(p => p.phase === 'Failed' || p.restarts > 5)`. -/
def failedPodsOf (pods : List PodStatus) : List PodStatus :=
  pods.filter fun p => p.phase == "Failed" || decide (p.restarts > 5)

/-- `events.map(e => `${e.reason}: ${e.message}`).join('; ')`. -/
def eventSummary (events : List EventInfo) : String :=
  String.intercalate "; " (events.map fun e => e.reason ++ ": " ++ e.message)

/-- The fail-fast error text of `waitForPodsReady`. -/
def podsFailedMessage (failedPods : List PodStatus) (events : List EventInfo) : String :=
  "Pods failed: " ++ String.intercalate ", " (failedPods.map fun p => p.name) ++
    ". Events: " ++ eventSummary events

/-- The attempts-exhausted error text of `waitForPodsReady`. -/
def notReadyMessage (maxAttempts : Nat) : String :=
  "Pods did not become ready within " ++ toString (maxAttempts * 5) ++ " seconds"

/-- The polling loop of `waitForPodsReady`: `rem` remaining attempts,
`i` current attempt index.  Each iteration awaits `allPodsReady`; if not
ready, awaits `getPodStatuses` and fail-fasts (after awaiting
`getEvents(ns, 5)`) when a pod has phase `Failed` or more than 5 restarts;
otherwise awaits `sleep(5000)` and continues.  Exhausted fuel models the
`maxAttempts` overrun throw. -/
def waitForPodsReadyGo (storeId : String) (env : ProvEnv) (maxAttempts : Nat) :
    Nat → Nat → World → World × Except String Unit
  | 0, _, w => (w, Except.error (notReadyMessage maxAttempts))
  | rem + 1, i, w =>
    let w := suspend storeId env.timeoutAt w
    if env.readyAt i then (w, Except.ok ())
    else
      let w := suspend storeId env.timeoutAt w
      let failedPods := failedPodsOf (env.podsAt i)
      if failedPods.isEmpty then
        let w := suspend storeId env.timeoutAt w
        waitForPodsReadyGo storeId env maxAttempts rem (i + 1) w
      else
        let w := suspend storeId env.timeoutAt w
        (w, Except.error (podsFailedMessage failedPods (getEvents (env.eventsAt i) 5)))

/-- `waitForPodsReady(namespace, storeId, maxAttempts = 60)`. -/
def waitForPodsReady (storeId : String) (env : ProvEnv) (maxAttempts : Nat)
    (w : World) : World × Except String Unit :=
  waitForPodsReadyGo storeId env maxAttempts maxAttempts 0 w

/-- The `try` block of `provisionStore`: read the record, resolve and
validate the engine, set status `provisioning`, await the helm install, poll
readiness, and on success mark ready with the engine URLs. -/
def provisionBody (storeId : String) (env : ProvEnv) (w : World) :
    World × Except String Unit :=
  match w.store with
  | none => (w, Except.error ("Store " ++ storeId ++ " not found in database"))
  | some record =>
    match lookupEngine record.engine with
    | none => (w, Except.error ("Unknown store engine: " ++ record.engine ++
        ". Available: woocommerce, medusa"))
    | some engine =>
      let validation := engineValidate engine
      if ¬ validation.1 then (w, Except.error validation.2)
      else
        let w := updateStatus w storeId Status.provisioning none
        let w := suspend storeId env.timeoutAt w
        match env.installErr with
        | some msg => (w, Except.error ("Helm command failed: " ++ msg))
        | none =>
          match waitForPodsReady storeId env 60 w with
          | (w', Except.error msg) => (w', Except.error msg)
          | (w', Except.ok _) =>
            let urls := engineUrls engine storeId env.baseDomain
            (markReady w' storeId urls.1 urls.2, Except.ok ())

/-- `provisionStore(storeId)`: return quietly if an operation is already
registered; otherwise register `provisioning`, schedule the deadline, run the
try block, on a thrown error set status `failed` with the reason, and in all
cases clear the deadline and remove the `activeOperations` entry. -/
def provisionStore (storeId : String) (env : ProvEnv) (w : World) : World :=
  if w.lock.isSome then w
  else
    let w := { w with lock := some OpKind.provisioning }
    let res := provisionBody storeId env w
    let w := match res.2 with
      | Except.ok _ => res.1
      | Except.error msg => updateStatus res.1 storeId Status.failed (some msg)
    { w with lock := none }

/-- Oracles for one `deleteStore` run: failure texts of the helm uninstall
and of the namespace delete (`none` = success). -/
structure DelEnv where
  uninstallErr : Option String
  nsDeleteErr : Option String

/-- `deleteStore(storeId)`: throws `An operation is already in progress for
this store` when the lock is held (before registering anything); otherwise
registers `deleting`, sets status `deleting`, attempts helm uninstall and
namespace delete — each failure is caught and only logged as a warning — and
marks the store deleted.  An error thrown before `markDeleted` (the
record-missing throw) sets `failed` with `Delete failed: <reason>` and is
re-thrown; the lock is removed in the `finally`. -/
def deleteStore (storeId : String) (env : DelEnv) (w : World) :
    World × Except String Unit :=
  if w.lock.isSome then
    (w, Except.error "An operation is already in progress for this store")
  else
    let w := { w with lock := some OpKind.deleting }
    let res :=
      match w.store with
      | none => (w, Except.error ("Store " ++ storeId ++ " not found"))
      | some _ =>
        let w := updateStatus w storeId Status.deleting none
        let w := match env.uninstallErr with
          | some _ => w
          | none => w
        let w := match env.nsDeleteErr with
          | some _ => w
          | none => w
        (markDeleted w storeId, Except.ok ())
    match res.2 with
    | Except.ok _ => ({ res.1 with lock := none }, Except.ok ())
    | Except.error msg =>
      let w' := updateStatus res.1 storeId Status.failed (some ("Delete failed: " ++ msg))
      ({ w' with lock := none }, Except.error msg)

-- ───────────────────────── routes/stores.js: guards ─────────────────────────

/-- `DELETE /stores/:id` guard chain: 404 when absent; 409
INVALID_STATE_TRANSITION on `deleted` (terminal); 409 OPERATION_IN_PROGRESS
on `deleting`; 409 INVALID_STATE_TRANSITION outside the deletable states;
otherwise 202 and `deleteStore` is scheduled in the background. -/
def deleteRoute (record : Option StoreRec) : Except ErrorResp Unit :=
  match record with
  | none => Except.error ⟨404, "NOT_FOUND"⟩
  | some r =>
    if r.status = Status.deleted then
      Except.error ⟨409, "INVALID_STATE_TRANSITION"⟩
    else if r.status = Status.deleting then
      Except.error ⟨409, "OPERATION_IN_PROGRESS"⟩
    else if ¬ (r.status = Status.ready ∨ r.status = Status.failed ∨
        r.status = Status.queued ∨ r.status = Status.provisioning) then
      Except.error ⟨409, "INVALID_STATE_TRANSITION"⟩
    else Except.ok ()

/-- `POST /stores/:id/retry` guard chain: 404 when absent; 409
INVALID_STATE_TRANSITION unless status is `failed`; 409
OPERATION_IN_PROGRESS when `getOperationStatus` reports an active operation;
otherwise 202 and `provisionStore` is scheduled. -/
def retryRoute (record : Option StoreRec) (opStatus : Option OpKind) :
    Except ErrorResp Unit :=
  match record with
  | none => Except.error ⟨404, "NOT_FOUND"⟩
  | some r =>
    if ¬ (r.status = Status.failed) then
      Except.error ⟨409, "INVALID_STATE_TRANSITION"⟩
    else if opStatus.isSome then
      Except.error ⟨409, "OPERATION_IN_PROGRESS"⟩
    else Except.ok ()

/-- `POST /stores` up to record creation: validation, engine availability,
then the quota guard `activeCount >= config.maxStores` → 429 QUOTA_EXCEEDED;
on success the new record is inserted with status `queued`. -/
def postStores (name : Option (List Char)) (engine : Option String)
    (statuses : List Status) (maxStores : Nat) :
    Except ErrorResp (List Char × String) :=
  match validateCreateStore name engine with
  | Except.error e => Except.error e
  | Except.ok (nm, eng) =>
    match lookupEngine eng with
    | none => Except.error ⟨500, "INTERNAL_SERVER_ERROR"⟩
    | some engineModule =>
      if ¬ (engineValidate engineModule).1 then
        Except.error ⟨400, "ENGINE_UNAVAILABLE"⟩
      else if maxStores ≤ getActiveCount statuses then
        Except.error ⟨429, "QUOTA_EXCEEDED"⟩
      else Except.ok (nm, eng)

-- ───────────────────────── recoverOnStartup ─────────────────────────

/-- Oracle for the startup reconciler: the (possibly rejecting) answer of
`kubectl.allPodsReady` per namespace, and the configured base domain. -/
structure RecoveryEnv where
  ready : String → Except String Bool
  baseDomain : String

/-- A store the reconciler considers stuck: status `provisioning` or
`queued`. -/
def isStuck (s : StoreRec) : Bool :=
  decide (s.status = Status.provisioning ∨ s.status = Status.queued)

/-- The failed-recovery message for a stuck store. -/
def recoveryFailedMsg (msg : String) : String := "Recovery failed: " ++ msg

/-- The restart-interruption message for a stuck store that is not ready. -/
def restartedMsg : String :=
  "API restarted during provisioning. Click retry to re-attempt."

/-- One iteration of the reconciler loop over a stuck store: pods ready →
mark ready with the engine URLs and audit `recovery`/`marked_ready`; not
ready → status `failed` with the restart message and audit
`recovery`/`marked_failed`; a throw (of the readiness query or the engine
lookup) → status `failed` with `Recovery failed: <reason>`.  Non-stuck
stores are untouched. -/
def recoverEntry (env : RecoveryEnv) (s : StoreRec) : StoreRec × List AuditEntry :=
  if isStuck s then
    match env.ready s.namespace_ with
    | Except.error msg =>
      ({ s with status := Status.failed,
                error_message := some (recoveryFailedMsg msg) },
       [⟨some s.id, "status_change",
          [("status", "failed"), ("errorMessage", recoveryFailedMsg msg)]⟩])
    | Except.ok true =>
      match lookupEngine s.engine with
      | none =>
        ({ s with status := Status.failed,
                  error_message := some (recoveryFailedMsg
                    ("Unknown store engine: " ++ s.engine ++
                      ". Available: woocommerce, medusa")) },
         [⟨some s.id, "status_change",
            [("status", "failed"),
             ("errorMessage", recoveryFailedMsg
               ("Unknown store engine: " ++ s.engine ++
                 ". Available: woocommerce, medusa"))]⟩])
      | some engine =>
        let urls := engineUrls engine s.id env.baseDomain
        ({ s with status := Status.ready, store_url := some urls.1,
                  admin_url := some urls.2, error_message := none },
         [⟨some s.id, "status_change",
            [("status", "ready"), ("storeUrl", urls.1), ("adminUrl", urls.2)]⟩,
          ⟨some s.id, "recovery",
            [("result", "marked_ready"), ("reason", "pods ready after restart")]⟩])
    | Except.ok false =>
      ({ s with status := Status.failed, error_message := some restartedMsg },
       [⟨some s.id, "status_change",
          [("status", "failed"), ("errorMessage", restartedMsg)]⟩,
        ⟨some s.id, "recovery",
          [("result", "marked_failed"),
           ("reason", "API restart interrupted provisioning")]⟩])
  else (s, [])

/-- `recoverOnStartup()`: applies `recoverEntry` to every store row
(the SQL updates are keyed by id, so the rows are updated in place) and
appends the audit entries of each stuck store in order. -/
def recoverOnStartup (env : RecoveryEnv) (stores : List StoreRec) :
    List StoreRec × List AuditEntry :=
  (stores.map fun s => (recoverEntry env s).1,
   stores.flatMap fun s => (recoverEntry env s).2)


-- ───────────────────────── C1 run environment ─────────────────────────

/-- A provision run in which the deadline elapses during the sleep of poll
attempt 0 (the 4th suspension: install, allPodsReady, getPodStatuses,
sleep) while attempt 1 then finds the pods ready: install succeeds, attempt
0 sees one running-but-unready pod with no restarts, attempt 1 reports
ready. -/
def timeoutCexEnv : ProvEnv where
  installErr := none
  installAlreadyExists := false
  readyAt := fun i => decide (1 ≤ i)
  podsAt := fun _ => [⟨"wordpress-0", "Running", false, 0⟩]
  eventsAt := fun _ => []
  timeoutAt := some 4
  baseDomain := "127.0.0.1.nip.io"

/-- A fresh world: one queued store row, no lock, empty audit log. -/
def initialWorld : World where
  store := some ⟨"store-1", "woocommerce", "store-1", Status.queued, none, none, none⟩
  lock := none
  auditLog := []
  awaitCount := 0
  timeoutFired := false

-- ───────────────────────── invariants ─────────────────────────

/-- The §8 record invariant: `ready` has both URLs, `failed` has a non-empty
error message. -/
def StoreInv (s : StoreRec) : Prop :=
  (s.status = Status.ready → s.store_url.isSome ∧ s.admin_url.isSome)
  ∧ (s.status = Status.failed → ∃ m, s.error_message = some m ∧ m ≠ "")

/-- The invariant lifted to a `World` (vacuous when the row is absent). -/
def WorldInv (w : World) : Prop :=
  ∀ r, w.store = some r → StoreInv r

end StorePlatform

namespace StorePlatform

-- ───────────────────────── C4: allPodsReady ─────────────────────────

/-- Filtering the status summaries on phase commutes with `getPodStatuses`. -/
lemma getPodStatuses_filter_phase (pods : List RawPod) :
    (getPodStatuses pods).filter (fun p => p.phase != "Succeeded") =
      getPodStatuses (pods.filter fun p => p.phase != "Succeeded") := by
  unfold getPodStatuses
  rw [List.filter_map]
  rfl

/-- `getPodStatuses` preserves list length. -/
lemma length_getPodStatuses (pods : List RawPod) :
    (getPodStatuses pods).length = pods.length := by
  simp [getPodStatuses]

/-- Readiness of every status summary is readiness of every raw pod. -/
lemma all_ready_getPodStatuses (pods : List RawPod) :
    ((getPodStatuses pods).all fun p => p.ready) = pods.all hasReadyCondition := by
  induction pods with
  | nil => rfl
  | cons a t ih =>
    simp only [getPodStatuses, List.map_cons, List.all_cons] at ih ⊢
    rw [ih]
    rfl

/-- **C4.** `allPodsReady` is true iff there is at least one non-`Succeeded`
pod and every non-`Succeeded` pod carries the condition `Ready=True`; it is
false on the empty list and when every pod has phase `Succeeded`. -/
theorem allPodsReady_iff :
    (∀ pods : List RawPod,
      allPodsReady pods = true ↔
        ((∃ p ∈ pods, p.phase ≠ "Succeeded") ∧
          ∀ p ∈ pods, p.phase ≠ "Succeeded" → hasReadyCondition p = true))
    ∧ allPodsReady [] = false
    ∧ (∀ pods : List RawPod,
        (∀ p ∈ pods, p.phase = "Succeeded") → allPodsReady pods = false) := by
  have main : ∀ pods : List RawPod,
      allPodsReady pods = true ↔
        ((∃ p ∈ pods, p.phase ≠ "Succeeded") ∧
          ∀ p ∈ pods, p.phase ≠ "Succeeded" → hasReadyCondition p = true) := by
    intro pods
    unfold allPodsReady
    dsimp only
    rw [getPodStatuses_filter_phase]
    simp only [length_getPodStatuses, all_ready_getPodStatuses]
    by_cases hnil : pods = []
    · subst hnil; simp
    · rw [if_neg (by simpa [List.length_eq_zero] using hnil)]
      by_cases hfil : pods.filter (fun p => p.phase != "Succeeded") = []
      · rw [hfil, if_pos List.length_nil]
        simp only [Bool.false_eq_true, false_iff]
        rw [List.filter_eq_nil_iff] at hfil
        rintro ⟨⟨p, hp, hph⟩, -⟩
        exact absurd (by simpa [bne_iff_ne] using hfil p hp) (not_not.mpr hph)
      · rw [if_neg (by simpa [List.length_eq_zero] using hfil)]
        rw [List.all_eq_true]
        constructor
        · intro h
          refine ⟨?_, ?_⟩
          · obtain ⟨p, hp⟩ := List.exists_mem_of_ne_nil _ hfil
            rw [List.mem_filter] at hp
            exact ⟨p, hp.1, by simpa [bne_iff_ne] using hp.2⟩
          · intro p hp hph
            exact h p (List.mem_filter.mpr ⟨hp, by simpa [bne_iff_ne] using hph⟩)
        · rintro ⟨-, hall⟩ p hp
          rw [List.mem_filter] at hp
          exact hall p hp.1 (by simpa [bne_iff_ne] using hp.2)
  refine ⟨main, by simp [allPodsReady, getPodStatuses], ?_⟩
  intro pods hsucc
  by_contra h
  rw [Bool.not_eq_false, main] at h
  obtain ⟨⟨p, hp, hpphase⟩, _⟩ := h
  exact hpphase (hsucc p hp)

/-- Witness for C4 at concrete inputs: a lone `Succeeded` pod is not "ready",
and a running pod with `Ready=True` next to a `Succeeded` pod is. -/
theorem allPodsReady_iff_witness :
    allPodsReady [⟨"init-job", "Succeeded", [⟨"Ready", "False"⟩], [0]⟩] = false
    ∧ allPodsReady [⟨"init-job", "Succeeded", [], [0]⟩,
        ⟨"wordpress-0", "Running", [⟨"Ready", "True"⟩], [0]⟩] = true := by
  constructor
  · exact allPodsReady_iff.2.2 _ (by decide)
  · exact (allPodsReady_iff.1 _).mpr (by decide)

-- ───────────────────────── C10: name validation ─────────────────────────

/-- With a trimmed length of at least 2 and no engine given, validation
succeeds with the trimmed name truncated to 100 characters. -/
lemma validateCreateStore_ok (n : List Char) (h2 : 2 ≤ (trimList n).length) :
    validateCreateStore (some n) none =
      Except.ok ((trimList n).take 100, "woocommerce") := by
  have hne : n.isEmpty = false := by
    cases n with
    | nil => simp [trimList] at h2
    | cons a t => rfl
  have h0 : ¬ (trimList n).length = 0 := by omega
  have h1 : ¬ (trimList n).length < 2 := by omega
  simp [validateCreateStore, hne, h0, h1]

/-- **C10.** A create request whose name has trimmed length at least 2 is
never rejected for length: validation succeeds, the stored name is the
trimmed name truncated to its first 100 characters, and its length lies
between 2 and 100. -/
theorem validateCreateStore_name_length (n : List Char)
    (h2 : 2 ≤ (trimList n).length) :
    validateCreateStore (some n) none =
        Except.ok ((trimList n).take 100, "woocommerce")
    ∧ 2 ≤ ((trimList n).take 100).length
    ∧ ((trimList n).take 100).length ≤ 100 := by
  refine ⟨validateCreateStore_ok n h2, ?_, ?_⟩
  · rw [List.length_take]; omega
  · rw [List.length_take]; omega

/-- Witness for C10 at the concrete name `"ab"`. -/
theorem validateCreateStore_name_length_witness :
    2 ≤ (trimList ['a', 'b']).length ∧
      validateCreateStore (some ['a', 'b']) none =
        Except.ok ((trimList ['a', 'b']).take 100, "woocommerce") :=
  ⟨by decide, (validateCreateStore_name_length ['a', 'b'] (by decide)).1⟩

-- ───────────────────────── C6: quota guard ─────────────────────────

/-- **C6.** For a valid create request (name of trimmed length ≥ 2, engine
defaulted to WooCommerce), `POST /stores` is rejected with 429
QUOTA_EXCEEDED exactly when the active count — stores whose status is not in
{deleted, failed} — is at least `maxStores`; at active count
`maxStores − 1` the creation succeeds. -/
theorem postStores_quota (n : List Char) (h2 : 2 ≤ (trimList n).length)
    (statuses : List Status) (maxStores : Nat) :
    (postStores (some n) none statuses maxStores =
        Except.error ⟨429, "QUOTA_EXCEEDED"⟩ ↔
      maxStores ≤ getActiveCount statuses)
    ∧ (getActiveCount statuses + 1 = maxStores →
        postStores (some n) none statuses maxStores =
          Except.ok ((trimList n).take 100, "woocommerce")) := by
  have hpost : postStores (some n) none statuses maxStores =
      if maxStores ≤ getActiveCount statuses then
        Except.error ⟨429, "QUOTA_EXCEEDED"⟩
      else Except.ok ((trimList n).take 100, "woocommerce") := by
    unfold postStores
    rw [validateCreateStore_ok n h2]
    simp [lookupEngine, engineValidate]
  constructor
  · rw [hpost]
    by_cases hq : maxStores ≤ getActiveCount statuses
    · simp [hq]
    · simp [hq]
  · intro h
    rw [hpost, if_neg (by omega)]

/-- Witness for C6: with two active stores and `maxStores = 3` the creation
succeeds; with `maxStores = 2` it is rejected with 429 QUOTA_EXCEEDED. -/
theorem postStores_quota_witness :
    (postStores (some ['a', 'b']) none
        [Status.ready, Status.queued, Status.deleted] 3 =
      Except.ok ((trimList ['a', 'b']).take 100, "woocommerce"))
    ∧ (postStores (some ['a', 'b']) none
        [Status.ready, Status.queued, Status.deleted] 2 =
      Except.error ⟨429, "QUOTA_EXCEEDED"⟩) :=
  ⟨(postStores_quota ['a', 'b'] (by decide)
      [Status.ready, Status.queued, Status.deleted] 3).2 (by decide),
   (postStores_quota ['a', 'b'] (by decide)
      [Status.ready, Status.queued, Status.deleted] 2).1.mpr (by decide)⟩

-- ───────────────────────── C7: state-transition guards ─────────────────────────

/-- **C7.** `DELETE` on a `deleted` store is 409 INVALID_STATE_TRANSITION;
`retry` on a store whose status is not `failed` is 409
INVALID_STATE_TRANSITION; `retry` on a `failed` store with an active
operation is 409 OPERATION_IN_PROGRESS. -/
theorem routeGuards_invalid_transitions :
    (∀ r : StoreRec, r.status = Status.deleted →
        deleteRoute (some r) = Except.error ⟨409, "INVALID_STATE_TRANSITION"⟩)
    ∧ (∀ (r : StoreRec) (op : Option OpKind), r.status ≠ Status.failed →
        retryRoute (some r) op = Except.error ⟨409, "INVALID_STATE_TRANSITION"⟩)
    ∧ (∀ (r : StoreRec) (k : OpKind), r.status = Status.failed →
        retryRoute (some r) (some k) =
          Except.error ⟨409, "OPERATION_IN_PROGRESS"⟩) := by
  refine ⟨?_, ?_, ?_⟩
  · intro r h
    simp [deleteRoute, h]
  · intro r op h
    simp [retryRoute, h]
  · intro r k h
    simp [retryRoute, h]

/-- Witness for C7 at concrete records. -/
theorem routeGuards_invalid_transitions_witness :
    deleteRoute (some ⟨"store-1", "woocommerce", "store-1", Status.deleted,
        none, none, none⟩) =
      Except.error ⟨409, "INVALID_STATE_TRANSITION"⟩
    ∧ retryRoute (some ⟨"store-1", "woocommerce", "store-1", Status.ready,
        none, none, none⟩) none =
      Except.error ⟨409, "INVALID_STATE_TRANSITION"⟩
    ∧ retryRoute (some ⟨"store-1", "woocommerce", "store-1", Status.failed,
        none, none, some "boom"⟩) (some OpKind.provisioning) =
      Except.error ⟨409, "OPERATION_IN_PROGRESS"⟩ :=
  ⟨routeGuards_invalid_transitions.1 _ rfl,
   routeGuards_invalid_transitions.2.1 _ none (by decide),
   routeGuards_invalid_transitions.2.2 _ OpKind.provisioning rfl⟩

-- ───────────────────────── C3: delete error handling ─────────────────────────

/-- Counterexample to C3 as stated: a failing namespace cascade delete does
NOT transition the store to failed — the failure is caught and only warned
about, the workflow continues, and the store ends `deleted` with the run
returning success. -/
theorem deleteStore_nsFailure_counterexample :
    ((deleteStore "store-1" ⟨none, some "kubectl failed: boom"⟩
        ⟨some ⟨"store-1", "woocommerce", "store-1", Status.ready,
          some "http://store-1.example", some "http://store-1.example/wp-admin",
          none⟩, none, [], 0, false⟩).1.store.map fun r => r.status) =
      some Status.deleted
    ∧ (deleteStore "store-1" ⟨none, some "kubectl failed: boom"⟩
        ⟨some ⟨"store-1", "woocommerce", "store-1", Status.ready,
          some "http://store-1.example", some "http://store-1.example/wp-admin",
          none⟩, none, [], 0, false⟩).2 = Except.ok () := by
  exact ⟨rfl, rfl⟩

/-- **C3 (amended).** In every delete run with the lock free:
chart-uninstall failures and namespace-delete failures are each caught and
logged as warnings, and the workflow proceeds to `markDeleted` (the store
ends `deleted` and the run succeeds); an unexpected error thrown before
`markDeleted` — the record-missing throw — leads to
`updateStatus(failed, 'Delete failed: <reason>')` and is re-thrown. -/
theorem deleteStore_error_handling (storeId : String) (env : DelEnv) (w : World)
    (hlock : w.lock = none) :
    (∀ r, w.store = some r →
      ((deleteStore storeId env w).1.store.map fun s => s.status) =
          some Status.deleted
      ∧ (deleteStore storeId env w).2 = Except.ok ())
    ∧ (w.store = none →
      (deleteStore storeId env w).1.store = none
      ∧ (deleteStore storeId env w).2 =
          Except.error ("Store " ++ storeId ++ " not found")
      ∧ (deleteStore storeId env w).1.auditLog =
          w.auditLog ++ [⟨some storeId, "status_change",
            [("status", "failed"),
             ("errorMessage", "Delete failed: Store " ++ storeId ++ " not found")]⟩]) := by
  constructor
  · intro r hr
    unfold deleteStore
    rw [hlock]
    simp only [Option.isSome_none, Bool.false_eq_true, if_false, hr]
    cases env.uninstallErr <;> cases env.nsDeleteErr <;>
      simp [markDeleted, updateStatus, auditLog]
  · intro hr
    unfold deleteStore
    rw [hlock]
    simp only [Option.isSome_none, Bool.false_eq_true, if_false, hr]
    simp only [updateStatus, auditLog, Option.map_none, Option.getD_some]
    have hmsg : "Delete failed: " ++ ("Store " ++ storeId ++ " not found") =
        "Delete failed: Store " ++ storeId ++ " not found" := by
      rw [← String.append_assoc, ← String.append_assoc]
      rfl
    refine ⟨rfl, trivial, ?_⟩
    rw [hmsg]
    rfl

/-- Witness for C3 (amended): a concrete delete run with a failing uninstall
still ends `deleted`, and a delete of a missing record re-throws. -/
theorem deleteStore_error_handling_witness :
    ((deleteStore "store-1" ⟨some "Helm command failed: boom", none⟩
        ⟨some ⟨"store-1", "woocommerce", "store-1", Status.failed, none, none,
          some "previous"⟩, none, [], 0, false⟩).1.store.map fun s => s.status) =
      some Status.deleted
    ∧ (deleteStore "store-2" ⟨none, none⟩ ⟨none, none, [], 0, false⟩).2 =
        Except.error ("Store " ++ "store-2" ++ " not found") :=
  ⟨((deleteStore_error_handling "store-1" ⟨some "Helm command failed: boom", none⟩
      ⟨some ⟨"store-1", "woocommerce", "store-1", Status.failed, none, none,
        some "previous"⟩, none, [], 0, false⟩ rfl).1 _ rfl).1,
   ((deleteStore_error_handling "store-2" ⟨none, none⟩
      ⟨none, none, [], 0, false⟩ rfl).2 rfl).2.1⟩

-- ───────────────────────── C2: delete of a provisioning store ─────────────────────────

/-- **C2 (divergence).** A `DELETE` of a `provisioning` store is accepted
with 202 by the route guard, but the background `deleteStore` — which runs
while the provisioning operation still holds the lock — throws
`An operation is already in progress for this store` before doing anything;
the route only logs that rejection, so the state is completely unchanged:
the store never transitions to `deleting` and the accepted deletion is
lost. -/
theorem deleteWhileProvisioning_lost :
    deleteRoute (some ⟨"store-1", "woocommerce", "store-1",
        Status.provisioning, none, none, none⟩) = Except.ok ()
    ∧ (deleteStore "store-1" ⟨none, none⟩
        ⟨some ⟨"store-1", "woocommerce", "store-1", Status.provisioning,
          none, none, none⟩, some OpKind.provisioning, [], 2, false⟩).2 =
      Except.error "An operation is already in progress for this store"
    ∧ (deleteStore "store-1" ⟨none, none⟩
        ⟨some ⟨"store-1", "woocommerce", "store-1", Status.provisioning,
          none, none, none⟩, some OpKind.provisioning, [], 2, false⟩).1 =
      ⟨some ⟨"store-1", "woocommerce", "store-1", Status.provisioning,
        none, none, none⟩, some OpKind.provisioning, [], 2, false⟩ := by
  exact ⟨rfl, rfl, rfl⟩

-- ───────────────────────── C1: provision timeout ─────────────────────────

/-- Counterexample to C1 as stated: in the `timeoutCexEnv` run the deadline
fires while the lock is held (`timeoutFired`), yet the workflow is not
terminated — the very same run continues, finds the pods ready on the next
poll, and marks the store `ready`. -/
theorem provisionTimeout_counterexample :
    (provisionStore "store-1" timeoutCexEnv initialWorld).timeoutFired = true
    ∧ ((provisionStore "store-1" timeoutCexEnv initialWorld).store.map
        fun r => r.status) = some Status.ready := by
  exact ⟨rfl, rfl⟩

/-- **C1 (amended).** When the provision deadline fires while the operation
lock for the store is held, the store is at that moment transitioned to
`failed` with error message `Provisioning timed out` and the lock is
released; but the workflow is not force-terminated — its remaining steps
still execute, and the same run can subsequently mark the store ready, as
the `timeoutCexEnv` run shows. -/
theorem provisionTimeout_behaviour :
    (∀ (storeId : String) (w : World), w.lock.isSome = true →
      ((handleTimeout storeId w).store.map fun r => r.status) =
          (w.store.map fun _ => Status.failed)
      ∧ ((handleTimeout storeId w).store.map fun r => r.error_message) =
          (w.store.map fun _ => some "Provisioning timed out")
      ∧ (handleTimeout storeId w).lock = none
      ∧ (handleTimeout storeId w).timeoutFired = true)
    ∧ ((provisionStore "store-1" timeoutCexEnv initialWorld).timeoutFired = true
      ∧ ((provisionStore "store-1" timeoutCexEnv initialWorld).store.map
          fun r => r.status) = some Status.ready) := by
  constructor
  · intro storeId w h
    unfold handleTimeout updateStatus auditLog
    rw [if_pos h]
    cases w.store <;> simp
  · exact ⟨rfl, rfl⟩

/-- Witness for C1 (amended) at a concrete locked world. -/
theorem provisionTimeout_behaviour_witness :
    ((handleTimeout "store-1" ⟨some ⟨"store-1", "woocommerce", "store-1",
        Status.provisioning, none, none, none⟩, some OpKind.provisioning,
        [], 3, false⟩).store.map fun r => r.status) = some Status.failed :=
  (provisionTimeout_behaviour.1 "store-1"
    ⟨some ⟨"store-1", "woocommerce", "store-1", Status.provisioning,
      none, none, none⟩, some OpKind.provisioning, [], 3, false⟩ rfl).1

-- ───────────────────────── C5: readiness fail-fast ─────────────────────────

/-- With no pending deadline, a suspension only bumps the await counter. -/
lemma suspend_none (storeId : String) (w : World) :
    suspend storeId none w = { w with awaitCount := w.awaitCount + 1 } := by
  simp [suspend]

/-- If every poll attempt before `i0` is neither ready nor failing, the
readiness loop reaches attempt `i0` and fail-fasts there with the enriched
message, leaving store, lock and audit log untouched. -/
lemma waitGo_failfast (storeId : String) (env : ProvEnv)
    (hT : env.timeoutAt = none) (maxAttempts i0 : Nat)
    (hnr : env.readyAt i0 = false)
    (hf : failedPodsOf (env.podsAt i0) ≠ []) :
    ∀ (rem i : Nat) (w : World), i ≤ i0 → i0 < i + rem →
      (∀ j, i ≤ j → j < i0 →
        env.readyAt j = false ∧ failedPodsOf (env.podsAt j) = []) →
      (waitForPodsReadyGo storeId env maxAttempts rem i w).1.store = w.store
      ∧ (waitForPodsReadyGo storeId env maxAttempts rem i w).1.lock = w.lock
      ∧ (waitForPodsReadyGo storeId env maxAttempts rem i w).1.auditLog = w.auditLog
      ∧ (waitForPodsReadyGo storeId env maxAttempts rem i w).2 =
          Except.error (podsFailedMessage (failedPodsOf (env.podsAt i0))
            (getEvents (env.eventsAt i0) 5)) := by
  intro rem
  induction rem with
  | zero => intro i w hi hi0 _; omega
  | succ rem ih =>
    intro i w hi hi0 hpre
    by_cases hii : i = i0
    · subst hii
      have hEmp : (failedPodsOf (env.podsAt i)).isEmpty = false := by
        cases hfp : failedPodsOf (env.podsAt i) with
        | nil => exact absurd hfp hf
        | cons a t => rfl
      simp [waitForPodsReadyGo, hT, suspend_none, hnr, hEmp]
    · have hlt : i < i0 := lt_of_le_of_ne hi hii
      obtain ⟨hr0, hp0⟩ := hpre i le_rfl hlt
      have hEmp : (failedPodsOf (env.podsAt i)).isEmpty = true := by
        rw [hp0]; rfl
      simp only [waitForPodsReadyGo, hT, suspend_none, hr0, hEmp,
        Bool.false_eq_true, if_false, if_true]
      exact ih (i + 1) _ (by omega) (by omega)
        (fun j hj1 hj2 => hpre j (by omega) hj2)


/-- `provisionStore` with a free lock: claim the lock, run the body, on an
error set `failed` with the reason, and release the lock. -/
lemma provisionStore_run (storeId : String) (env : ProvEnv) (w : World)
    (hlock : w.lock = none) :
    provisionStore storeId env w =
      match provisionBody storeId env { w with lock := some OpKind.provisioning } with
      | (w1, Except.ok _) => { w1 with lock := none }
      | (w1, Except.error msg) =>
        { (updateStatus w1 storeId Status.failed (some msg)) with lock := none } := by
  unfold provisionStore
  rw [hlock]
  rcases hb : provisionBody storeId env { w with lock := some OpKind.provisioning }
    with ⟨w1, res⟩
  simp only [Option.isSome_none, Bool.false_eq_true, if_false, hb]
  cases res <;> rfl

/-- `provisionBody` for a present WooCommerce record with a successful
install and no pending deadline: set status `provisioning`, suspend for the
install, and run the readiness poll. -/
lemma provisionBody_run (storeId : String) (env : ProvEnv) (w : World)
    (r : StoreRec) (hrec : w.store = some r) (heng : r.engine = "woocommerce")
    (hinstall : env.installErr = none) (hT : env.timeoutAt = none) :
    provisionBody storeId env w =
      match waitForPodsReadyGo storeId env 60 60 0
          { (updateStatus w storeId Status.provisioning none) with
            awaitCount := (updateStatus w storeId Status.provisioning none).awaitCount + 1 } with
      | (w1, Except.error msg) => (w1, Except.error msg)
      | (w1, Except.ok _) =>
        (markReady w1 storeId
          (engineUrls Engine.woocommerce storeId env.baseDomain).1
          (engineUrls Engine.woocommerce storeId env.baseDomain).2, Except.ok ()) := by
  unfold provisionBody
  rw [hrec]
  simp only [heng]
  rw [show lookupEngine "woocommerce" = some Engine.woocommerce from rfl]
  simp only [engineValidate]
  rw [if_neg (show ¬ ¬ True from fun h => h trivial)]
  rw [hT, suspend_none, hinstall]
  rfl

/-- **C5.** In a provision run with no deadline interference: if every poll
attempt before `i0 < 60` is neither ready nor failing, attempt `i0` is not
ready, and some pod at attempt `i0` has phase `Failed` or restarts > 5,
then the loop aborts there and the store ends `failed` with the message
listing the failing pod names and the last 5 events as `reason: message`. -/
theorem provision_failfast (storeId : String) (env : ProvEnv) (w : World)
    (r : StoreRec) (i0 : Nat)
    (hT : env.timeoutAt = none) (hlock : w.lock = none)
    (hrec : w.store = some r) (heng : r.engine = "woocommerce")
    (hinstall : env.installErr = none) (hi : i0 < 60)
    (hpre : ∀ j, j < i0 →
      env.readyAt j = false ∧ failedPodsOf (env.podsAt j) = [])
    (hnr : env.readyAt i0 = false)
    (hf : failedPodsOf (env.podsAt i0) ≠ []) :
    ((provisionStore storeId env w).store.map fun s => s.status) =
        some Status.failed
    ∧ ((provisionStore storeId env w).store.map fun s => s.error_message) =
        some (some (podsFailedMessage (failedPodsOf (env.podsAt i0))
          (getEvents (env.eventsAt i0) 5))) := by
  rw [provisionStore_run storeId env w hlock,
    provisionBody_run storeId env { w with lock := some OpKind.provisioning }
      r hrec heng hinstall hT]
  rcases hw : waitForPodsReadyGo storeId env 60 60 0
      { (updateStatus { w with lock := some OpKind.provisioning }
          storeId Status.provisioning none) with
        awaitCount := (updateStatus { w with lock := some OpKind.provisioning }
          storeId Status.provisioning none).awaitCount + 1 } with ⟨w1, res⟩
  obtain ⟨hstore, -, -, herr⟩ :=
    waitGo_failfast storeId env hT 60 i0 hnr hf 60 0
      { (updateStatus { w with lock := some OpKind.provisioning }
          storeId Status.provisioning none) with
        awaitCount := (updateStatus { w with lock := some OpKind.provisioning }
          storeId Status.provisioning none).awaitCount + 1 }
      (by omega) (by omega) (fun j _ hj2 => hpre j hj2)
  rw [hw] at hstore herr
  simp only at hstore herr
  subst herr
  constructor
  · simp only [updateStatus, auditLog, hstore, hrec]
    rfl
  · simp only [updateStatus, auditLog, hstore, hrec]
    rfl

/-- Witness for C5: a pod with 6 restarts on attempt 0 fail-fasts the run
and the store ends `failed`. -/
theorem provision_failfast_witness :
    ((provisionStore "store-1"
        ⟨none, false, fun _ => false,
          fun _ => [⟨"wordpress-0", "Running", false, 6⟩],
          fun _ => [⟨"Warning", "BackOff",
            "Back-off restarting failed container", "wordpress-0", "t"⟩],
          none, "127.0.0.1.nip.io"⟩ initialWorld).store.map
      fun s => s.status) = some Status.failed :=
  (provision_failfast "store-1"
    ⟨none, false, fun _ => false,
      fun _ => [⟨"wordpress-0", "Running", false, 6⟩],
      fun _ => [⟨"Warning", "BackOff",
        "Back-off restarting failed container", "wordpress-0", "t"⟩],
      none, "127.0.0.1.nip.io"⟩ initialWorld
    ⟨"store-1", "woocommerce", "store-1", Status.queued, none, none, none⟩ 0
    rfl rfl rfl rfl rfl (by omega)
    (fun j hj => absurd hj (Nat.not_lt_zero j)) rfl (by decide)).1

-- ───────────────────────── C8: startup reconciliation ─────────────────────────

/-- **C8.** The reconciler maps every row independently and settles each
stuck store (status provisioning/queued) exactly one way: pods ready and
engine known → marked ready with the engine-computed URLs plus a
`recovery`/`marked_ready` audit entry; pods not ready → failed with the
restart message plus `recovery`/`marked_failed`; a throw of the readiness
query → failed with `Recovery failed: <reason>` (and the loop continues with
the remaining stores, since each row is settled independently); non-stuck
stores are not modified, and a stuck store always ends ready or failed —
provisioning is never resumed. -/
theorem recoverOnStartup_spec (env : RecoveryEnv) :
    (∀ stores : List StoreRec,
      (recoverOnStartup env stores).1 = stores.map fun s => (recoverEntry env s).1)
    ∧ (∀ s : StoreRec,
        (isStuck s = false → recoverEntry env s = (s, []))
        ∧ (isStuck s = true →
            (∀ e, env.ready s.namespace_ = Except.ok true →
              lookupEngine s.engine = some e →
              (recoverEntry env s).1 =
                { s with
                  status := Status.ready,
                  store_url := some (engineUrls e s.id env.baseDomain).1,
                  admin_url := some (engineUrls e s.id env.baseDomain).2,
                  error_message := none }
              ∧ (⟨some s.id, "recovery", [("result", "marked_ready"),
                  ("reason", "pods ready after restart")]⟩ : AuditEntry) ∈
                  (recoverEntry env s).2)
            ∧ (env.ready s.namespace_ = Except.ok false →
                (recoverEntry env s).1 =
                  { s with
                    status := Status.failed,
                    error_message := some restartedMsg }
                ∧ (⟨some s.id, "recovery", [("result", "marked_failed"),
                    ("reason", "API restart interrupted provisioning")]⟩ : AuditEntry) ∈
                    (recoverEntry env s).2)
            ∧ (∀ msg, env.ready s.namespace_ = Except.error msg →
                (recoverEntry env s).1 =
                  { s with
                    status := Status.failed,
                    error_message := some (recoveryFailedMsg msg) })
            ∧ ((recoverEntry env s).1.status = Status.ready ∨
               (recoverEntry env s).1.status = Status.failed))) := by
  refine ⟨fun stores => rfl, fun s => ⟨?_, ?_⟩⟩
  · intro h
    simp [recoverEntry, h]
  · intro h
    refine ⟨?_, ?_, ?_, ?_⟩
    · intro e hok heng
      simp [recoverEntry, h, hok, heng]
    · intro hok
      simp [recoverEntry, h, hok]
    · intro msg herr
      simp [recoverEntry, h, herr]
    · cases hr : env.ready s.namespace_ with
      | error msg =>
        right
        simp [recoverEntry, h, hr]
      | ok b =>
        cases b with
        | false =>
          right
          simp [recoverEntry, h, hr]
        | true =>
          cases he : lookupEngine s.engine with
          | none =>
            right
            simp [recoverEntry, h, hr, he]
          | some e =>
            left
            simp [recoverEntry, h, hr, he]

/-- Witness for C8: a provisioning store whose pods are ready is marked
ready with the WooCommerce URLs. -/
theorem recoverOnStartup_spec_witness :
    (recoverEntry ⟨fun _ => Except.ok true, "127.0.0.1.nip.io"⟩
        ⟨"store-1", "woocommerce", "store-1", Status.provisioning,
          none, none, none⟩).1 =
      { id := "store-1", engine := "woocommerce", namespace_ := "store-1",
        status := Status.ready,
        store_url := some (engineUrls Engine.woocommerce "store-1"
          "127.0.0.1.nip.io").1,
        admin_url := some (engineUrls Engine.woocommerce "store-1"
          "127.0.0.1.nip.io").2,
        error_message := none } :=
  by
  have h := (recoverOnStartup_spec
      ⟨fun _ => Except.ok true, "127.0.0.1.nip.io"⟩).2
    ⟨"store-1", "woocommerce", "store-1", Status.provisioning,
      none, none, none⟩
  exact ((h.2 (by decide)).1 Engine.woocommerce rfl rfl).1

-- ───────────────────────── C9: record invariants ─────────────────────────

/-- A string with a non-empty prefix is non-empty. -/
lemma append_ne_empty (a b : String) (h : a.length ≠ 0) : a ++ b ≠ "" := by
  intro hc
  have hl := congrArg String.length hc
  rw [String.length_append] at hl
  have h0 : ("" : String).length = 0 := rfl
  rw [h0] at hl
  omega

/-- The attempts-exhausted message is non-empty. -/
lemma notReadyMessage_ne_empty (n : Nat) : notReadyMessage n ≠ "" := by
  unfold notReadyMessage
  apply append_ne_empty
  rw [String.length_append]
  have h : ("Pods did not become ready within " : String).length = 33 := rfl
  omega

/-- The fail-fast message is non-empty. -/
lemma podsFailedMessage_ne_empty (ps : List PodStatus) (es : List EventInfo) :
    podsFailedMessage ps es ≠ "" := by
  unfold podsFailedMessage
  apply append_ne_empty
  rw [String.length_append, String.length_append]
  have h : ("Pods failed: " : String).length = 13 := rfl
  omega

/-- `updateStatus` preserves the record invariant whenever the new status is
not `ready` and a `failed` status always comes with a non-empty message. -/
lemma worldInv_updateStatus (w : World) (storeId : String) (st : Status)
    (msg : Option String) (hst : st ≠ Status.ready)
    (hfail : st = Status.failed → ∃ m, msg = some m ∧ m ≠ "") :
    WorldInv w → WorldInv (updateStatus w storeId st msg) := by
  intro _ r hr
  simp only [updateStatus, auditLog] at hr
  cases hs : w.store with
  | none => rw [hs] at hr; exact absurd hr (by simp)
  | some r0 =>
    rw [hs] at hr
    simp only [Option.map_some'] at hr
    cases hr
    constructor
    · intro hready
      exact absurd hready hst
    · intro hfailed
      obtain ⟨m, hm, hmne⟩ := hfail hfailed
      exact ⟨m, by simpa using hm, hmne⟩

/-- `markReady` (re-)establishes the record invariant: both URLs are set. -/
lemma worldInv_markReady (w : World) (storeId u a : String) :
    WorldInv w → WorldInv (markReady w storeId u a) := by
  intro _ r hr
  simp only [markReady, auditLog] at hr
  cases hs : w.store with
  | none => rw [hs] at hr; exact absurd hr (by simp)
  | some r0 =>
    rw [hs] at hr
    simp only [Option.map_some'] at hr
    cases hr
    exact ⟨fun _ => ⟨rfl, rfl⟩, fun hf => Status.noConfusion hf⟩

/-- `markDeleted` preserves the record invariant. -/
lemma worldInv_markDeleted (w : World) (storeId : String) :
    WorldInv w → WorldInv (markDeleted w storeId) := by
  intro _ r hr
  simp only [markDeleted, auditLog] at hr
  cases hs : w.store with
  | none => rw [hs] at hr; exact absurd hr (by simp)
  | some r0 =>
    rw [hs] at hr
    simp only [Option.map_some'] at hr
    cases hr
    exact ⟨fun hf => Status.noConfusion hf, fun hf => Status.noConfusion hf⟩

/-- The timeout handler preserves the record invariant (its message
`Provisioning timed out` is non-empty). -/
lemma worldInv_handleTimeout (storeId : String) (w : World) :
    WorldInv w → WorldInv (handleTimeout storeId w) := by
  intro hw
  unfold handleTimeout
  split
  · intro r hr
    exact worldInv_updateStatus w storeId Status.failed
      (some "Provisioning timed out") (by decide)
      (fun _ => ⟨_, rfl, by decide⟩) hw r hr
  · exact hw

/-- Suspensions preserve the record invariant. -/
lemma worldInv_suspend (storeId : String) (t : Option Nat) (w : World) :
    WorldInv w → WorldInv (suspend storeId t w) := by
  intro hw
  unfold suspend
  dsimp only
  split
  · exact worldInv_handleTimeout storeId _ hw
  · exact hw

/-- The readiness loop preserves the record invariant and only throws
non-empty messages. -/
lemma waitGo_inv (storeId : String) (env : ProvEnv) (maxAttempts : Nat) :
    ∀ (rem i : Nat) (w : World), WorldInv w →
      WorldInv (waitForPodsReadyGo storeId env maxAttempts rem i w).1
      ∧ (∀ msg, (waitForPodsReadyGo storeId env maxAttempts rem i w).2 =
          Except.error msg → msg ≠ "") := by
  intro rem
  induction rem with
  | zero =>
    intro i w hw
    refine ⟨hw, fun msg hmsg => ?_⟩
    simp only [waitForPodsReadyGo, Except.error.injEq] at hmsg
    rw [← hmsg]
    exact notReadyMessage_ne_empty maxAttempts
  | succ rem ih =>
    intro i w hw
    unfold waitForPodsReadyGo
    by_cases hri : env.readyAt i = true
    · simp only [hri, if_true]
      exact ⟨worldInv_suspend _ _ _ hw, fun msg hmsg => by simp at hmsg⟩
    · simp only [hri]
      by_cases hfp : (failedPodsOf (env.podsAt i)).isEmpty = true
      · simp only [hfp, if_true, Bool.false_eq_true, if_false]
        exact ih (i + 1) _
          (worldInv_suspend _ _ _ (worldInv_suspend _ _ _
            (worldInv_suspend _ _ _ hw)))
      · simp only [hfp, Bool.false_eq_true, if_false]
        refine ⟨worldInv_suspend _ _ _ (worldInv_suspend _ _ _
          (worldInv_suspend _ _ _ hw)), fun msg hmsg => ?_⟩
        simp only [Except.error.injEq] at hmsg
        rw [← hmsg]
        exact podsFailedMessage_ne_empty _ _

/-- The provision try-block preserves the record invariant and only throws
non-empty messages. -/
lemma provisionBody_inv (storeId : String) (env : ProvEnv) (w : World)
    (hw : WorldInv w) :
    WorldInv (provisionBody storeId env w).1
    ∧ (∀ msg, (provisionBody storeId env w).2 = Except.error msg → msg ≠ "") := by
  unfold provisionBody
  cases hs : w.store with
  | none =>
    dsimp only
    refine ⟨hw, fun msg hmsg => ?_⟩
    simp only [Except.error.injEq] at hmsg
    rw [← hmsg]
    apply append_ne_empty
    rw [String.length_append]
    have h : ("Store " : String).length = 6 := rfl
    omega
  | some record =>
    dsimp only
    cases he : lookupEngine record.engine with
    | none =>
      dsimp only
      refine ⟨hw, fun msg hmsg => ?_⟩
      simp only [Except.error.injEq] at hmsg
      rw [← hmsg]
      apply append_ne_empty
      rw [String.length_append]
      have h : ("Unknown store engine: " : String).length = 22 := rfl
      omega
    | some engine =>
      cases engine with
      | medusa =>
        simp only [engineValidate]
        rw [if_pos (show ¬ ((false, "MedusaJS engine is not yet implemented. Please use WooCommerce.").1 = true) by decide)]
        refine ⟨hw, fun msg hmsg => ?_⟩
        simp only [Except.error.injEq] at hmsg
        rw [← hmsg]
        decide
      | woocommerce =>
        simp only [engineValidate]
        rw [if_neg (show ¬ ¬ True from fun h => h trivial)]
        have hw2 : WorldInv (suspend storeId env.timeoutAt
            (updateStatus w storeId Status.provisioning none)) :=
          worldInv_suspend _ _ _
            (worldInv_updateStatus w storeId Status.provisioning none
              (by decide) (fun h => Status.noConfusion h) hw)
        cases hie : env.installErr with
        | some m =>
          refine ⟨hw2, fun msg hmsg => ?_⟩
          simp only [Except.error.injEq] at hmsg
          rw [← hmsg]
          exact append_ne_empty _ _ (by decide)
        | none =>
          obtain ⟨hwi, hwe⟩ := waitGo_inv storeId env 60 60 0
            (suspend storeId env.timeoutAt
              (updateStatus w storeId Status.provisioning none)) hw2
          rcases hwait : waitForPodsReadyGo storeId env 60 60 0
            (suspend storeId env.timeoutAt
              (updateStatus w storeId Status.provisioning none)) with ⟨w1, res⟩
          rw [hwait] at hwi hwe
          simp only at hwi hwe
          have hwait' : waitForPodsReady storeId env 60
              (suspend storeId env.timeoutAt
                (updateStatus w storeId Status.provisioning none)) = (w1, res) := by
            unfold waitForPodsReady
            exact hwait
          rw [hwait']
          cases res with
          | error msg =>
            refine ⟨hwi, fun m hm => ?_⟩
            simp only [Except.error.injEq] at hm
            rw [← hm]
            exact hwe msg rfl
          | ok u =>
            exact ⟨worldInv_markReady _ _ _ _ hwi,
              fun m hm => by simp at hm⟩

/-- `provisionStore` preserves the record invariant. -/
lemma provisionStore_inv (storeId : String) (env : ProvEnv) (w : World)
    (hw : WorldInv w) : WorldInv (provisionStore storeId env w) := by
  unfold provisionStore
  split
  · exact hw
  · dsimp only
    obtain ⟨hbi, hbe⟩ := provisionBody_inv storeId env
      { w with lock := some OpKind.provisioning } hw
    rcases hb : provisionBody storeId env
      { w with lock := some OpKind.provisioning } with ⟨w1, res⟩
    rw [hb] at hbi hbe
    simp only at hbi hbe
    cases res with
    | ok u => exact hbi
    | error msg =>
      exact worldInv_updateStatus w1 storeId Status.failed (some msg)
        (by decide) (fun _ => ⟨msg, rfl, hbe msg rfl⟩) hbi

/-- `deleteStore` preserves the record invariant. -/
lemma deleteStore_inv (storeId : String) (env : DelEnv) (w : World)
    (hw : WorldInv w) : WorldInv (deleteStore storeId env w).1 := by
  unfold deleteStore
  split
  · exact hw
  · dsimp only
    cases hs : w.store with
    | none =>
      dsimp only
      refine fun r hr => worldInv_updateStatus
        { w with lock := some OpKind.deleting } storeId Status.failed
        (some ("Delete failed: " ++ ("Store " ++ storeId ++ " not found")))
        (by decide)
        (fun _ => ⟨_, rfl, append_ne_empty "Delete failed: " _ (by decide)⟩)
        hw r ?_
      rw [hs]
      exact hr
    | some r0 =>
      dsimp only
      cases hu : env.uninstallErr <;> cases hn : env.nsDeleteErr <;>
        dsimp only <;>
        (refine fun r hr => worldInv_markDeleted
          (updateStatus { w with lock := some OpKind.deleting }
            storeId Status.deleting none) storeId
          (worldInv_updateStatus { w with lock := some OpKind.deleting }
            storeId Status.deleting none
            (fun h => Status.noConfusion h)
            (fun h => Status.noConfusion h) hw) r ?_) <;>
        (rw [hs]; exact hr)

/-- `recoverEntry` preserves the record invariant. -/
lemma recoverEntry_inv (env : RecoveryEnv) (s : StoreRec) (hs : StoreInv s) :
    StoreInv (recoverEntry env s).1 := by
  unfold recoverEntry
  split
  · cases hr : env.ready s.namespace_ with
    | error msg =>
      refine ⟨fun h => Status.noConfusion h, fun _ => ⟨_, rfl, ?_⟩⟩
      apply append_ne_empty
      have h : ("Recovery failed: " : String).length = 17 := rfl
      omega
    | ok b =>
      cases b with
      | false =>
        exact ⟨fun h => Status.noConfusion h, fun _ => ⟨_, rfl, by decide⟩⟩
      | true =>
        cases he : lookupEngine s.engine with
        | none =>
          refine ⟨fun h => Status.noConfusion h, fun _ => ⟨_, rfl, ?_⟩⟩
          apply append_ne_empty
          have h : ("Recovery failed: " : String).length = 17 := rfl
          omega
        | some e =>
          exact ⟨fun _ => ⟨rfl, rfl⟩, fun h => Status.noConfusion h⟩
  · exact hs

/-- **C9.** Every state reachable through the registry operations as the
API and the workflows invoke them keeps the record invariant: `ready`
implies both URLs are set, `failed` implies a non-empty error message.
Creation inserts a `queued` row with both URLs null; the provision workflow
(with its deadline handler firing at any suspension), the delete workflow,
and the startup reconciler each preserve the invariant. -/
theorem registry_invariants :
    (∀ (id engine ns : String),
      StoreInv ⟨id, engine, ns, Status.queued, none, none, none⟩)
    ∧ (∀ (storeId : String) (env : ProvEnv) (w : World),
        WorldInv w → WorldInv (provisionStore storeId env w))
    ∧ (∀ (storeId : String) (env : DelEnv) (w : World),
        WorldInv w → WorldInv (deleteStore storeId env w).1)
    ∧ (∀ (env : RecoveryEnv) (s : StoreRec),
        StoreInv s → StoreInv (recoverEntry env s).1)
    ∧ (∀ (storeId : String) (w : World),
        WorldInv w → WorldInv (handleTimeout storeId w)) := by
  refine ⟨?_, ?_, ?_, ?_, ?_⟩
  · intro id engine ns
    exact ⟨fun h => Status.noConfusion h, fun h => Status.noConfusion h⟩
  · exact fun storeId env w => provisionStore_inv storeId env w
  · exact fun storeId env w => deleteStore_inv storeId env w
  · exact fun env s => recoverEntry_inv env s
  · exact fun storeId w => worldInv_handleTimeout storeId w

/-- Witness for C9: the invariant holds after a full provision run that
marks the store ready. -/
theorem registry_invariants_witness :
    WorldInv (provisionStore "store-1"
      ⟨none, false, fun _ => true, fun _ => [], fun _ => [], none,
        "127.0.0.1.nip.io"⟩ initialWorld) :=
  registry_invariants.2.1 "store-1"
    ⟨none, false, fun _ => true, fun _ => [], fun _ => [], none,
      "127.0.0.1.nip.io"⟩ initialWorld
    (fun r hr => by
      injection hr with h
      subst h
      exact ⟨fun h => Status.noConfusion h, fun h => Status.noConfusion h⟩)

end StorePlatform
